import Mathlib

/-!
Verification of the logging utility of `icloud-contacts-organizer`
(`src/icloud_contacts_organizer/utils/_logging.py`): the `get_logger`
provisioning function and the `ArcpyHandler` sink.

The embedding models the state of the one logger addressed by a call
(the logger registered under the requested name): its severity level,
propagation flag and ordered handler list.  The runtime environment
(availability of the `arcpy` module, outcome of the filesystem calls)
is an explicit record, and raised Python exceptions are `Except` errors;
mutations performed before a raise are kept in the returned state, as
they are in the real process.
-/

namespace ICLog

/-- Default value of the `log_format` argument of `get_logger`. -/
def fmtDefault : String := "%(asctime)s | %(name)s | %(levelname)s | %(message)s"

/-- File open mode of `logging.FileHandler` when no mode is given: append. -/
def modeAppend : String := "a"

/-- The string `INFO`, the default `level` argument. -/
def infoName : String := "INFO"

/-- The string `DEBUG`. -/
def debugName : String := "DEBUG"

/-- The string `TRACE`, an unrecognized level name used as a test input. -/
def traceName : String := "TRACE"

/-- A sample logfile path used in concrete test inputs. -/
def pathDemo : String := "data/logs/run.log"

/-- A handler (sink) attached to a logger.  `stream` is a console
`logging.StreamHandler()`; `file` is a `logging.FileHandler` with its path
and open mode; `arcpy` is an `ArcpyHandler` with its handler level.
Each carries the formatter set on it (`none` before any `setFormatter`). -/
inductive Handler where
  | stream (formatter : Option String)
  | file (path : String) (mode : String) (formatter : Option String)
  | arcpy (level : Int) (formatter : Option String)
deriving DecidableEq

/-- Python `isinstance(h, logging.StreamHandler)`.  In the Python class
hierarchy `logging.FileHandler` is a subclass of `logging.StreamHandler`,
so a file handler is classified as a stream handler; `ArcpyHandler`
derives from `logging.Handler` directly and is not. -/
def Handler.isStreamHandlerInstance : Handler → Bool
  | .stream _ => true
  | .file _ _ _ => true
  | .arcpy _ _ => false

/-- A console sink in the sense of the specification: a handler that
writes to the console, i.e. a plain `logging.StreamHandler`. -/
def Handler.isConsole : Handler → Bool
  | .stream _ => true
  | _ => false

/-- A file sink: a `logging.FileHandler`. -/
def Handler.isFile : Handler → Bool
  | .file _ _ _ => true
  | _ => false

/-- A host-bridge sink: an `ArcpyHandler`. -/
def Handler.isArcpy : Handler → Bool
  | .arcpy _ _ => true
  | _ => false

/-- Python `h.setFormatter(fmt)`: replaces the formatter of the handler,
leaving everything else unchanged. -/
def Handler.setFormatter (h : Handler) (fmt : String) : Handler :=
  match h with
  | .stream _ => .stream (some fmt)
  | .file p m _ => .file p m (some fmt)
  | .arcpy l _ => .arcpy l (some fmt)

/-- State of one logger: level, propagation flag, ordered handler list. -/
structure LoggerState where
  level : Int
  propagate : Bool
  handlers : List Handler
deriving DecidableEq

/-- A freshly created Python logger: level `NOTSET` (0), propagation on,
no handlers. -/
def freshLogger : LoggerState := { level := 0, propagate := true, handlers := [] }

/-- Mutable filesystem state visible to `get_logger`: whether the parent
directory of the logfile path exists. -/
structure FsState where
  parentExists : Bool
deriving DecidableEq

/-- Static runtime environment: whether `importlib.util.find_spec("arcpy")`
finds the module, and whether the `mkdir` and file-open system calls
succeed when attempted. -/
structure Env where
  arcpyAvailable : Bool
  mkdirOk : Bool
  openOk : Bool
deriving DecidableEq

/-- Python exceptions raised by this module.  `valueError` is the
invalid-level error, `environmentError` the ArcPy-missing error of
`ArcpyHandler.__init__`, `attributeError` the error from taking `.parent`
of a plain string, and `osError` a propagated filesystem failure. -/
inductive Err where
  | valueError
  | environmentError
  | attributeError
  | osError
deriving DecidableEq

/-- The `level` argument of `get_logger`: a string, an integer, or any
other value (such as `None`), which fails the `isinstance` check. -/
inductive LevelArg where
  | str (s : String)
  | int (n : Int)
  | nonScalar
deriving DecidableEq

/-- The `logfile_path` argument: omitted (`None`), a `pathlib.Path`
value, or a plain string (the signature admits both `Path` and `str`). -/
inductive PathArg where
  | none
  | path (p : String)
  | strPath (s : String)
deriving DecidableEq

/-- The `log_str_lst` list of recognized severity names in `get_logger`. -/
def log_str_lst : List String :=
  ["DEBUG", "INFO", "WARNING", "ERROR", "CRITICAL", "WARN", "FATAL"]

/-- The `log_int_lst` list of recognized integer codes in `get_logger`. -/
def log_int_lst : List Int := [0, 10, 20, 30, 40, 50]

/-- The validation block at the top of `get_logger`: `level` passes iff it
is a string in `log_str_lst` or an integer in `log_int_lst`; any other
value (including non-string, non-integer arguments) raises `ValueError`. -/
def validLevel : LevelArg → Bool
  | .str s => log_str_lst.contains s
  | .int n => log_int_lst.contains n
  | .nonScalar => false

/-- Numeric value stored by `logger.setLevel` for each recognized name
(`logging._nameToLevel`): WARN aliases WARNING and FATAL aliases CRITICAL. -/
def levelNameToInt : String → Int
  | "DEBUG" => 10
  | "INFO" => 20
  | "WARNING" => 30
  | "WARN" => 30
  | "ERROR" => 40
  | "CRITICAL" => 50
  | "FATAL" => 50
  | _ => 0

/-- Numeric threshold stored by `logger.setLevel(level)` for a valid level. -/
def levelToInt : LevelArg → Int
  | .str s => levelNameToInt s
  | .int n => n
  | .nonScalar => 0

/-- Arguments of `get_logger` with their source defaults (the logger name
selects which logger state the call acts on and is kept outside). -/
structure Args where
  level : LevelArg := LevelArg.str infoName
  logfile_path : PathArg := PathArg.none
  log_format : String := fmtDefault
  propagate : Bool := true
  add_stream_handler : Bool := true
  add_arcpy_handler : Bool := false
deriving DecidableEq

/-- The `ArcpyHandler.__init__` constructor: raises `EnvironmentError`
when `find_spec("arcpy")` is `None`, otherwise yields the handler (the
parent `logging.Handler.__init__` stores the level; no formatter yet). -/
def ArcpyHandler.init (env : Env) (level : Int) : Except Err Handler :=
  if env.arcpyAvailable = false then .error .environmentError
  else .ok (.arcpy level none)

/-- ArcPy messaging channels used by `ArcpyHandler.emit`: `AddMessage`
(informational), `AddWarning`, `AddError`. -/
inductive ArcpyChannel where
  | addMessage
  | addWarning
  | addError
deriving DecidableEq

/-- The routing of `ArcpyHandler.emit` by `record.levelno`: at most 20
goes through `AddMessage`, exactly 30 through `AddWarning`, everything
else through `AddError`. -/
def ArcpyHandler.emitRoute (levelno : Int) : ArcpyChannel :=
  if levelno ≤ 20 then .addMessage
  else if levelno = 30 then .addWarning
  else .addError

/-- The `setFormatter` call of the stream-handler block applied to the
first handler of the list that passes the `isinstance` scan (the handler
`next((h for h in logger.handlers if isinstance(h, logging.StreamHandler)), None)`
returns); later handlers are untouched. -/
def setFormatterFirstStream (fmt : String) : List Handler → List Handler
  | [] => []
  | h :: t =>
    if h.isStreamHandlerInstance then h.setFormatter fmt :: t
    else h :: setFormatterFirstStream fmt t

/-- The `add_stream_handler` block of `get_logger`: when requested, scan
the handler list for an existing `logging.StreamHandler` instance; if one
is found only its formatter is set, otherwise a new `StreamHandler()` is
appended and its formatter set. -/
def streamStep (a : Args) (hs : List Handler) : List Handler :=
  if a.add_stream_handler then
    if hs.any Handler.isStreamHandlerInstance then setFormatterFirstStream a.log_format hs
    else hs ++ [Handler.stream (some a.log_format)]
  else hs

/-- The `add_arcpy_handler` block of `get_logger`: when
`find_spec("arcpy")` is not `None` and the flag is set, construct an
`ArcpyHandler()` (default level 10), set its formatter and append it. -/
def arcpyStep (a : Args) (env : Env) (hs : List Handler) :
    List Handler × Except Err Unit :=
  if env.arcpyAvailable && a.add_arcpy_handler then
    match ArcpyHandler.init env 10 with
    | .error e => (hs, .error e)
    | .ok h => (hs ++ [h.setFormatter a.log_format], .ok ())
  else (hs, .ok ())

/-- The `logfile_path` block of `get_logger`: nothing for `None`; for a
value, take `.parent` (a plain string has no such attribute, so a string
raises `AttributeError`), create the parent directory with
`mkdir(parents=True)` when it does not exist, then open a
`logging.FileHandler` (append mode), set its formatter and append it.
Filesystem failures propagate as raised errors. -/
def fileStep (a : Args) (env : Env) (hs : List Handler) (fs : FsState) :
    List Handler × FsState × Except Err Unit :=
  match a.logfile_path with
  | .none => (hs, fs, .ok ())
  | .strPath _ => (hs, fs, .error .attributeError)
  | .path p =>
    if fs.parentExists then
      if env.openOk then
        (hs ++ [Handler.file p modeAppend (some a.log_format)], fs, .ok ())
      else (hs, fs, .error .osError)
    else
      if env.mkdirOk then
        if env.openOk then
          (hs ++ [Handler.file p modeAppend (some a.log_format)],
            { parentExists := true }, .ok ())
        else (hs, { parentExists := true }, .error .osError)
      else (hs, fs, .error .osError)

/-- The `get_logger` function, acting on the state of the logger
registered under the requested name: validate the level (raising before
any mutation on failure), set level and propagation, run the
stream-handler, arcpy-handler and logfile blocks in source order; a raise
in a later block keeps the mutations already performed. -/
def get_logger (a : Args) (env : Env) (st : LoggerState) (fs : FsState) :
    LoggerState × FsState × Except Err Unit :=
  if validLevel a.level = false then (st, fs, .error .valueError)
  else
    let st1 : LoggerState :=
      { level := levelToInt a.level, propagate := a.propagate,
        handlers := st.handlers }
    let hs2 := streamStep a st1.handlers
    match arcpyStep a env hs2 with
    | (hs3, .error e) => ({ st1 with handlers := hs3 }, fs, .error e)
    | (hs3, .ok _) =>
      let fr := fileStep a env hs3 fs
      ({ st1 with handlers := fr.1 }, fr.2.1, fr.2.2)

/-- Number of console sinks attached. -/
def countConsole (hs : List Handler) : Nat := hs.countP Handler.isConsole

/-- Number of file sinks attached. -/
def countFile (hs : List Handler) : Nat := hs.countP Handler.isFile

/-- Number of host-bridge sinks attached. -/
def countArcpy (hs : List Handler) : Nat := hs.countP Handler.isArcpy

/-! Helper lemmas about the handler-list transformations. -/

theorem isConsole_setFormatter (h : Handler) (fmt : String) :
    (h.setFormatter fmt).isConsole = h.isConsole := by
  cases h <;> rfl

theorem isFile_setFormatter (h : Handler) (fmt : String) :
    (h.setFormatter fmt).isFile = h.isFile := by
  cases h <;> rfl

theorem isArcpy_setFormatter (h : Handler) (fmt : String) :
    (h.setFormatter fmt).isArcpy = h.isArcpy := by
  cases h <;> rfl

theorem isStream_setFormatter (h : Handler) (fmt : String) :
    (h.setFormatter fmt).isStreamHandlerInstance = h.isStreamHandlerInstance := by
  cases h <;> rfl

theorem countP_setFormatterFirstStream (p : Handler → Bool)
    (hp : ∀ (h : Handler) (fmt : String), p (h.setFormatter fmt) = p h)
    (fmt : String) (hs : List Handler) :
    (setFormatterFirstStream fmt hs).countP p = hs.countP p := by
  induction hs with
  | nil => rfl
  | cons h t ih =>
    by_cases hh : h.isStreamHandlerInstance
    · simp [setFormatterFirstStream, hh, List.countP_cons, hp]
    · simp [setFormatterFirstStream, hh, List.countP_cons, ih]

theorem any_setFormatterFirstStream (p : Handler → Bool)
    (hp : ∀ (h : Handler) (fmt : String), p (h.setFormatter fmt) = p h)
    (fmt : String) (hs : List Handler) :
    (setFormatterFirstStream fmt hs).any p = hs.any p := by
  induction hs with
  | nil => rfl
  | cons h t ih =>
    by_cases hh : h.isStreamHandlerInstance
    · simp [setFormatterFirstStream, hh, hp]
    · simp [setFormatterFirstStream, hh, ih]

theorem countConsole_streamStep (a : Args) (hs : List Handler) :
    countConsole (streamStep a hs) =
      if a.add_stream_handler && !(hs.any Handler.isStreamHandlerInstance)
      then countConsole hs + 1 else countConsole hs := by
  unfold streamStep countConsole
  by_cases hadd : a.add_stream_handler
  · by_cases hany : hs.any Handler.isStreamHandlerInstance
    · simp [hadd, hany, countP_setFormatterFirstStream _ isConsole_setFormatter]
    · simp [hadd, hany, List.countP_append, List.countP_cons, Handler.isConsole]
  · simp [hadd]

theorem countFile_streamStep (a : Args) (hs : List Handler) :
    countFile (streamStep a hs) = countFile hs := by
  unfold streamStep countFile
  by_cases hadd : a.add_stream_handler
  · by_cases hany : hs.any Handler.isStreamHandlerInstance
    · simp [hadd, hany, countP_setFormatterFirstStream _ isFile_setFormatter]
    · simp [hadd, hany, List.countP_append, List.countP_cons, Handler.isFile]
  · simp [hadd]

theorem countArcpy_streamStep (a : Args) (hs : List Handler) :
    countArcpy (streamStep a hs) = countArcpy hs := by
  unfold streamStep countArcpy
  by_cases hadd : a.add_stream_handler
  · by_cases hany : hs.any Handler.isStreamHandlerInstance
    · simp [hadd, hany, countP_setFormatterFirstStream _ isArcpy_setFormatter]
    · simp [hadd, hany, List.countP_append, List.countP_cons, Handler.isArcpy]
  · simp [hadd]

theorem anyStream_streamStep (a : Args) (hs : List Handler)
    (hadd : a.add_stream_handler = true) :
    (streamStep a hs).any Handler.isStreamHandlerInstance = true := by
  unfold streamStep
  by_cases hany : hs.any Handler.isStreamHandlerInstance
  · simp [hadd, hany, any_setFormatterFirstStream _ isStream_setFormatter]
  · simp [hadd, hany, Handler.isStreamHandlerInstance]

theorem anyStream_streamStep_of_any (a : Args) (hs : List Handler)
    (hany : hs.any Handler.isStreamHandlerInstance = true) :
    (streamStep a hs).any Handler.isStreamHandlerInstance = true := by
  unfold streamStep
  by_cases hadd : a.add_stream_handler
  · simp [hadd, hany, any_setFormatterFirstStream _ isStream_setFormatter]
  · simpa [hadd] using hany

theorem arcpyStep_eq (a : Args) (env : Env) (hs : List Handler) :
    arcpyStep a env hs =
      (if env.arcpyAvailable && a.add_arcpy_handler
       then hs ++ [Handler.arcpy 10 (some a.log_format)] else hs, .ok ()) := by
  unfold arcpyStep
  by_cases hg : env.arcpyAvailable && a.add_arcpy_handler
  · have hg2 := hg
    rw [Bool.and_eq_true] at hg2
    simp [hg, hg2.1, hg2.2, ArcpyHandler.init, Handler.setFormatter]
  · simp [hg]

/-- Characterization of `get_logger` on a valid level: the level and
propagation flag are set, and the handler list goes through the stream,
arcpy and file blocks in order. -/
theorem get_logger_valid (a : Args) (env : Env) (st : LoggerState) (fs : FsState)
    (h : validLevel a.level = true) :
    get_logger a env st fs =
      (({ level := levelToInt a.level, propagate := a.propagate,
          handlers := (fileStep a env
            (if env.arcpyAvailable && a.add_arcpy_handler
             then streamStep a st.handlers ++ [Handler.arcpy 10 (some a.log_format)]
             else streamStep a st.handlers) fs).1 } : LoggerState),
       (fileStep a env
            (if env.arcpyAvailable && a.add_arcpy_handler
             then streamStep a st.handlers ++ [Handler.arcpy 10 (some a.log_format)]
             else streamStep a st.handlers) fs).2.1,
       (fileStep a env
            (if env.arcpyAvailable && a.add_arcpy_handler
             then streamStep a st.handlers ++ [Handler.arcpy 10 (some a.log_format)]
             else streamStep a st.handlers) fs).2.2) := by
  unfold get_logger
  simp [h, arcpyStep_eq]

theorem fileStep_none (a : Args) (env : Env) (hs : List Handler) (fs : FsState)
    (hp : a.logfile_path = PathArg.none) :
    fileStep a env hs fs = (hs, fs, .ok ()) := by
  unfold fileStep
  rw [hp]

theorem fileStep_strPath (a : Args) (env : Env) (hs : List Handler) (fs : FsState)
    (s : String) (hp : a.logfile_path = PathArg.strPath s) :
    fileStep a env hs fs = (hs, fs, .error .attributeError) := by
  unfold fileStep
  rw [hp]

theorem fileStep_path_ok (a : Args) (env : Env) (hs : List Handler) (pe : Bool)
    (p : String) (hp : a.logfile_path = PathArg.path p)
    (hmk : pe = false → env.mkdirOk = true) (hop : env.openOk = true) :
    fileStep a env hs { parentExists := pe } =
      (hs ++ [Handler.file p modeAppend (some a.log_format)],
        ({ parentExists := true } : FsState), .ok ()) := by
  unfold fileStep
  rw [hp]
  cases pe
  · simp [hmk rfl, hop]
  · simp [hop]

theorem fileStep_error (a : Args) (env : Env) (hs : List Handler) (fs : FsState)
    (e : Err) (h : (fileStep a env hs fs).2.2 = .error e) :
    (fileStep a env hs fs).1 = hs ∧ e ≠ Err.valueError := by
  unfold fileStep at h ⊢
  rcases hp : a.logfile_path with _ | p | s
  · simp [hp] at h
  · split_ifs at h ⊢ <;> simp_all <;> subst h <;> decide
  · simp [hp] at h
    subst h
    simp

theorem countConsole_fileStep (a : Args) (env : Env) (hs : List Handler) (fs : FsState) :
    countConsole (fileStep a env hs fs).1 = countConsole hs := by
  unfold fileStep
  rcases hp : a.logfile_path with _ | p | s
  · rfl
  · split_ifs <;>
      simp [countConsole, List.countP_append, List.countP_cons, Handler.isConsole]
  · rfl

theorem anyStream_fileStep_of_any (a : Args) (env : Env) (hs : List Handler)
    (fs : FsState) (h : hs.any Handler.isStreamHandlerInstance = true) :
    (fileStep a env hs fs).1.any Handler.isStreamHandlerInstance = true := by
  unfold fileStep
  rcases hp : a.logfile_path with _ | p | s
  · exact h
  · split_ifs <;> simp [h, Handler.isStreamHandlerInstance]
  · exact h

theorem countConsole_postBridge (a : Args) (env : Env) (hs : List Handler) :
    countConsole (if env.arcpyAvailable && a.add_arcpy_handler
      then streamStep a hs ++ [Handler.arcpy 10 (some a.log_format)]
      else streamStep a hs) = countConsole (streamStep a hs) := by
  split
  · simp [countConsole, List.countP_append, List.countP_cons, Handler.isConsole]
  · rfl

theorem countFile_postBridge (a : Args) (env : Env) (hs : List Handler) :
    countFile (if env.arcpyAvailable && a.add_arcpy_handler
      then streamStep a hs ++ [Handler.arcpy 10 (some a.log_format)]
      else streamStep a hs) = countFile hs := by
  rw [← countFile_streamStep a hs]
  split
  · simp [countFile, List.countP_append, List.countP_cons, Handler.isFile]
  · rfl

theorem anyStream_postBridge (a : Args) (env : Env) (hs : List Handler)
    (h : (streamStep a hs).any Handler.isStreamHandlerInstance = true) :
    (if env.arcpyAvailable && a.add_arcpy_handler
      then streamStep a hs ++ [Handler.arcpy 10 (some a.log_format)]
      else streamStep a hs).any Handler.isStreamHandlerInstance = true := by
  split
  · simp [h]
  · exact h

theorem countArcpy_postBridge_true (a : Args) (env : Env) (hs : List Handler)
    (hg : (env.arcpyAvailable && a.add_arcpy_handler) = true) :
    countArcpy (if env.arcpyAvailable && a.add_arcpy_handler
      then streamStep a hs ++ [Handler.arcpy 10 (some a.log_format)]
      else streamStep a hs) = countArcpy hs + 1 := by
  rw [if_pos hg, ← countArcpy_streamStep a hs]
  simp [countArcpy, List.countP_append, List.countP_cons, Handler.isArcpy]

theorem countArcpy_postBridge_false (a : Args) (env : Env) (hs : List Handler)
    (hg : (env.arcpyAvailable && a.add_arcpy_handler) = false) :
    countArcpy (if env.arcpyAvailable && a.add_arcpy_handler
      then streamStep a hs ++ [Handler.arcpy 10 (some a.log_format)]
      else streamStep a hs) = countArcpy hs := by
  rw [if_neg (by simp [hg]), countArcpy_streamStep]

/-- Console-sink count after one `get_logger` call on an arbitrary prior
logger state: a console sink is added exactly when the level is valid,
the flag is set and the scan finds no `StreamHandler` instance. -/
theorem countConsole_get_logger (a : Args) (env : Env) (st : LoggerState) (fs : FsState) :
    countConsole (get_logger a env st fs).1.handlers =
      if validLevel a.level && a.add_stream_handler
          && !(st.handlers.any Handler.isStreamHandlerInstance)
      then countConsole st.handlers + 1 else countConsole st.handlers := by
  by_cases hv : validLevel a.level
  · rw [get_logger_valid a env st fs hv]
    simp only [countConsole_fileStep, countConsole_postBridge, countConsole_streamStep]
    simp [hv]
  · rw [Bool.not_eq_true] at hv
    simp [get_logger, hv]

theorem anyStream_get_logger (a : Args) (env : Env) (st : LoggerState) (fs : FsState)
    (hv : validLevel a.level = true) (hadd : a.add_stream_handler = true) :
    (get_logger a env st fs).1.handlers.any Handler.isStreamHandlerInstance = true := by
  rw [get_logger_valid a env st fs hv]
  exact anyStream_fileStep_of_any _ _ _ _
    (anyStream_postBridge _ _ _ (anyStream_streamStep _ _ hadd))

theorem get_logger_invalid (a : Args) (env : Env) (st : LoggerState) (fs : FsState)
    (h : validLevel a.level = false) :
    get_logger a env st fs = (st, fs, .error .valueError) := by
  simp [get_logger, h]

theorem countArcpy_fileStep (a : Args) (env : Env) (hs : List Handler) (fs : FsState) :
    countArcpy (fileStep a env hs fs).1 = countArcpy hs := by
  unfold fileStep
  rcases hp : a.logfile_path with _ | p | s
  · rfl
  · split_ifs <;>
      simp [countArcpy, List.countP_append, List.countP_cons, Handler.isArcpy]
  · rfl

theorem fileStep_handlers_append (a : Args) (env : Env) (hs : List Handler)
    (fs : FsState) : ∃ rest, (fileStep a env hs fs).1 = hs ++ rest := by
  unfold fileStep
  rcases hp : a.logfile_path with _ | p | s
  · exact ⟨[], by simp⟩
  · split_ifs <;> first | exact ⟨_, rfl⟩ | exact ⟨[], by simp⟩
  · exact ⟨[], by simp⟩

theorem postBridge_handlers_append (a : Args) (env : Env) (hs : List Handler) :
    ∃ rest, (if env.arcpyAvailable && a.add_arcpy_handler
      then streamStep a hs ++ [Handler.arcpy 10 (some a.log_format)]
      else streamStep a hs) = streamStep a hs ++ rest := by
  split
  · exact ⟨_, rfl⟩
  · exact ⟨[], by simp⟩

/-- The handler list after a successful validation always extends the
outcome of the stream-handler block: later blocks only append. -/
theorem handlers_get_logger_append (a : Args) (env : Env) (st : LoggerState)
    (fs : FsState) (hv : validLevel a.level = true) :
    ∃ rest, (get_logger a env st fs).1.handlers = streamStep a st.handlers ++ rest := by
  rw [get_logger_valid a env st fs hv]
  obtain ⟨r1, hr1⟩ := postBridge_handlers_append a env st.handlers
  rw [hr1]
  obtain ⟨r2, hr2⟩ := fileStep_handlers_append a env (streamStep a st.handlers ++ r1) fs
  exact ⟨r1 ++ r2, by rw [hr2, List.append_assoc]⟩

theorem length_setFormatterFirstStream (fmt : String) (hs : List Handler) :
    (setFormatterFirstStream fmt hs).length = hs.length := by
  induction hs with
  | nil => rfl
  | cons h t ih =>
    by_cases hh : h.isStreamHandlerInstance <;>
      simp [setFormatterFirstStream, hh, ih]

/-- On a list whose first `StreamHandler`-classified element is `h`, the
formatter update of the stream block touches exactly `h` and keeps every
other element, in place. -/
theorem setFormatterFirstStream_first_match (fmt : String) (pre : List Handler)
    (h : Handler) (post : List Handler)
    (hpre : pre.any Handler.isStreamHandlerInstance = false)
    (hh : h.isStreamHandlerInstance = true) :
    setFormatterFirstStream fmt (pre ++ h :: post) =
      pre ++ h.setFormatter fmt :: post := by
  induction pre with
  | nil => simp [setFormatterFirstStream, hh]
  | cons q t ih =>
    simp only [List.any_cons, Bool.or_eq_false_iff] at hpre
    simp [setFormatterFirstStream, hpre.1, ih hpre.2]

/-! Concrete inputs used in witnesses and counterexamples. -/

/-- A call with every argument at its source default. -/
def argsStream : Args := {}

/-- A call with the unrecognized level name TRACE. -/
def argsTrace : Args := { level := LevelArg.str traceName }

/-- A call with level DEBUG and all other arguments at their defaults. -/
def argsDebug : Args := { level := LevelArg.str debugName }

/-- A call requesting the arcpy handler. -/
def argsBridge : Args := { add_arcpy_handler := true }

/-- A call with a `pathlib.Path` logfile path. -/
def argsFileDemo : Args := { logfile_path := PathArg.path pathDemo }

/-- A call with a plain-string logfile path. -/
def argsStrFileDemo : Args := { logfile_path := PathArg.strPath pathDemo }

/-- An environment without arcpy where all filesystem calls succeed. -/
def envPlain : Env := { arcpyAvailable := false, mkdirOk := true, openOk := true }

/-- An environment with arcpy where all filesystem calls succeed. -/
def envArcpy : Env := { arcpyAvailable := true, mkdirOk := true, openOk := true }

/-- An environment where `mkdir` fails with an `OSError`. -/
def envNoMkdir : Env := { arcpyAvailable := false, mkdirOk := false, openOk := true }

/-- Filesystem in which the logfile parent directory exists. -/
def fsReady : FsState := { parentExists := true }

/-- Filesystem in which the logfile parent directory is missing. -/
def fsNoParent : FsState := { parentExists := false }

/-- A logger whose only attached sink is a file sink. -/
def fileOnlyLogger : LoggerState :=
  { level := 0, propagate := true,
    handlers := [Handler.file pathDemo modeAppend none] }

/-! Claims. -/

/-- C1: for every logger name, calling `get_logger` twice with
`add_stream_handler=True` on the logger registered under that name,
starting from its freshly created state, leaves exactly one console sink
attached after both calls, and already exactly one after the first call
(so at no point does the logger hold two console sinks).  The first call
must pass level validation; the second call and both environments are
arbitrary. -/
theorem C1_single_console_after_two_calls
    (a1 a2 : Args) (env1 env2 : Env) (fs1 fs2 : FsState)
    (h1 : a1.add_stream_handler = true) (_h2 : a2.add_stream_handler = true)
    (hv1 : validLevel a1.level = true) :
    countConsole (get_logger a1 env1 freshLogger fs1).1.handlers = 1 ∧
    countConsole (get_logger a2 env2
      (get_logger a1 env1 freshLogger fs1).1 fs2).1.handlers = 1 := by
  have s1count : countConsole (get_logger a1 env1 freshLogger fs1).1.handlers = 1 := by
    rw [countConsole_get_logger]
    simp [freshLogger, hv1, h1, countConsole]
  refine ⟨s1count, ?_⟩
  have hany := anyStream_get_logger a1 env1 freshLogger fs1 hv1 h1
  rw [countConsole_get_logger]
  simp [hany, s1count]

theorem C1_single_console_after_two_calls_witness :
    countConsole (get_logger argsStream envPlain freshLogger fsReady).1.handlers = 1 ∧
    countConsole (get_logger argsStream envPlain
      (get_logger argsStream envPlain freshLogger fsReady).1 fsReady).1.handlers = 1 :=
  C1_single_console_after_two_calls argsStream argsStream envPlain envPlain
    fsReady fsReady rfl rfl rfl

/-- C2 counterexample: a logger whose only attached sink is a file sink
(so no console sink at all), provisioned with `add_stream_handler=True`
and otherwise default arguments, successfully completes the call yet ends
with no console sink: the `isinstance(h, logging.StreamHandler)` scan
matches the file handler (`FileHandler` subclasses `StreamHandler`), so
the code reuses it instead of attaching a console sink.  This refutes the
claim that every call on a logger with no console sink attaches one. -/
theorem C2_no_console_attached_counterexample :
    argsStream.add_stream_handler = true ∧
    fileOnlyLogger.handlers.any Handler.isConsole = false ∧
    (get_logger argsStream envPlain fileOnlyLogger fsReady).2.2 = .ok () ∧
    (get_logger argsStream envPlain fileOnlyLogger fsReady).1.handlers.any
      Handler.isConsole = false :=
  ⟨rfl, rfl, rfl, rfl⟩

/-- C2 amended: when `add_stream_handler=True` and the level is valid,
the scan keys on the `StreamHandler` classification, which covers file
sinks as well as console sinks: if the logger has no sink of that
classification a new console sink is attached (console count grows by
one); if it has one, that sink is reused and only its formatter updated,
and no console sink is attached (console count unchanged).  Reuse is
stated exactly: writing the prior handler list as `pre ++ h :: post`
with `h` its first `StreamHandler`-classified sink, the segment of the
resulting handler list covering the pre-existing sinks is
`pre ++ h.setFormatter log_format :: post` — the found sink stays in
place with only its formatter replaced, every other prior sink
untouched. -/
theorem C2_stream_lineage_dedup
    (a : Args) (env : Env) (st : LoggerState) (fs : FsState)
    (hadd : a.add_stream_handler = true) (hv : validLevel a.level = true) :
    (st.handlers.any Handler.isStreamHandlerInstance = false →
      countConsole (get_logger a env st fs).1.handlers =
        countConsole st.handlers + 1) ∧
    (st.handlers.any Handler.isStreamHandlerInstance = true →
      countConsole (get_logger a env st fs).1.handlers =
        countConsole st.handlers) ∧
    (∀ (pre : List Handler) (h : Handler) (post : List Handler),
      st.handlers = pre ++ h :: post →
      pre.any Handler.isStreamHandlerInstance = false →
      h.isStreamHandlerInstance = true →
      (get_logger a env st fs).1.handlers.take st.handlers.length =
        pre ++ h.setFormatter a.log_format :: post) := by
  refine ⟨?_, ?_, ?_⟩
  · intro hany
    rw [countConsole_get_logger]
    simp [hv, hadd, hany]
  · intro hany
    rw [countConsole_get_logger]
    simp [hv, hadd, hany]
  · intro pre h post hsplit hpre hh
    have hany : st.handlers.any Handler.isStreamHandlerInstance = true := by
      rw [hsplit]
      simp [hh]
    obtain ⟨rest, hrest⟩ := handlers_get_logger_append a env st fs hv
    have hstream : streamStep a st.handlers =
        pre ++ h.setFormatter a.log_format :: post := by
      rw [streamStep, if_pos hadd, if_pos hany, hsplit]
      exact setFormatterFirstStream_first_match a.log_format pre h post hpre hh
    have hlen : (streamStep a st.handlers).length = st.handlers.length := by
      rw [streamStep, if_pos hadd, if_pos hany]
      exact length_setFormatterFirstStream a.log_format st.handlers
    rw [hrest, ← hlen, List.take_left, hstream]

theorem C2_stream_lineage_dedup_witness :
    countConsole (get_logger argsStream envPlain freshLogger fsReady).1.handlers =
      countConsole freshLogger.handlers + 1 ∧
    (get_logger argsStream envPlain fileOnlyLogger fsReady).1.handlers.take
        fileOnlyLogger.handlers.length =
      [] ++ (Handler.file pathDemo modeAppend none).setFormatter
        argsStream.log_format :: [] :=
  ⟨(C2_stream_lineage_dedup argsStream envPlain freshLogger fsReady rfl rfl).1 rfl,
   (C2_stream_lineage_dedup argsStream envPlain fileOnlyLogger fsReady rfl rfl).2.2
     [] (Handler.file pathDemo modeAppend none) [] rfl rfl rfl⟩

/-- C3: for every level argument failing validation (a string outside the
recognized names, an integer outside the recognized codes, or a
non-string non-integer value), `get_logger` raises the invalid-level
`ValueError` with the logger state and filesystem fully unchanged, so no
sink is attached. -/
theorem C3_invalid_level_no_mutation
    (a : Args) (env : Env) (st : LoggerState) (fs : FsState)
    (h : validLevel a.level = false) :
    get_logger a env st fs = (st, fs, .error .valueError) :=
  get_logger_invalid a env st fs h

theorem C3_invalid_level_no_mutation_witness :
    validLevel argsTrace.level = false ∧
    get_logger argsTrace envPlain freshLogger fsReady =
      (freshLogger, fsReady, .error .valueError) :=
  ⟨rfl, C3_invalid_level_no_mutation argsTrace envPlain freshLogger fsReady rfl⟩

/-- C4 counterexample: a call with a valid level, `add_stream_handler=True`
and a logfile path whose missing parent directory cannot be created fails
with the propagated `OSError`, yet by then it has already attached a
console sink and changed the logger level — refuting the claim that every
failing call raises before any handler is attached with prior state
unchanged. -/
theorem C4_failed_call_mutates_counterexample :
    (get_logger argsFileDemo envNoMkdir freshLogger fsNoParent).2.2 =
      .error Err.osError ∧
    countConsole (get_logger argsFileDemo envNoMkdir
      freshLogger fsNoParent).1.handlers = 1 ∧
    (get_logger argsFileDemo envNoMkdir freshLogger fsNoParent).1.level = 20 ∧
    freshLogger.handlers = [] ∧ freshLogger.level = 0 :=
  ⟨rfl, rfl, rfl, rfl, rfl⟩

/-- C4 amended: only the invalid-level failure raises before any
mutation, leaving logger and filesystem state exactly as they were; every
failing call, of any kind, raises before the file sink is attached (the
file-sink count never changes on a failed call), but later failures
(string logfile path, filesystem errors) keep the level, propagation and
console/bridge mutations already performed: after any non-valueError
failure the level is set to the requested one, the propagation flag to
the given one, a requested console sink has been attached (by the dedup
rule) and a requested-and-available bridge sink has been attached. -/
theorem C4_failure_localization
    (a : Args) (env : Env) (st : LoggerState) (fs : FsState) (e : Err)
    (h : (get_logger a env st fs).2.2 = .error e) :
    countFile (get_logger a env st fs).1.handlers = countFile st.handlers ∧
    (e = Err.valueError → get_logger a env st fs = (st, fs, .error .valueError)) ∧
    (e ≠ Err.valueError →
      (get_logger a env st fs).1.level = levelToInt a.level ∧
      (get_logger a env st fs).1.propagate = a.propagate ∧
      countConsole (get_logger a env st fs).1.handlers =
        (if a.add_stream_handler
            && !(st.handlers.any Handler.isStreamHandlerInstance)
         then countConsole st.handlers + 1 else countConsole st.handlers) ∧
      countArcpy (get_logger a env st fs).1.handlers =
        (if env.arcpyAvailable && a.add_arcpy_handler
         then countArcpy st.handlers + 1 else countArcpy st.handlers)) := by
  by_cases hv : validLevel a.level
  · rw [get_logger_valid a env st fs hv] at h ⊢
    have herr := fileStep_error a env _ fs e h
    refine ⟨?_, ?_, ?_⟩
    · simp only [herr.1, countFile_postBridge]
    · intro hev
      exact absurd hev herr.2
    · intro _
      refine ⟨rfl, rfl, ?_, ?_⟩
      · simp only [countConsole_fileStep, countConsole_postBridge,
          countConsole_streamStep]
      · by_cases hg : env.arcpyAvailable && a.add_arcpy_handler
        · rw [countArcpy_fileStep, countArcpy_postBridge_true a env _ hg, if_pos hg]
        · have hg2 : (env.arcpyAvailable && a.add_arcpy_handler) = false := by
            rwa [Bool.not_eq_true] at hg
          rw [countArcpy_fileStep, countArcpy_postBridge_false a env _ hg2, if_neg hg]
  · rw [Bool.not_eq_true] at hv
    rw [get_logger_invalid a env st fs hv] at h ⊢
    have he : e = Err.valueError := (Except.error.inj h).symm
    exact ⟨rfl, fun _ => rfl, fun hne => absurd he hne⟩

theorem C4_failure_localization_witness :
    countFile (get_logger argsFileDemo envNoMkdir
      freshLogger fsNoParent).1.handlers = countFile freshLogger.handlers ∧
    (Err.osError = Err.valueError →
      get_logger argsFileDemo envNoMkdir freshLogger fsNoParent =
        (freshLogger, fsNoParent, .error .valueError)) ∧
    (Err.osError ≠ Err.valueError →
      (get_logger argsFileDemo envNoMkdir freshLogger fsNoParent).1.level =
        levelToInt argsFileDemo.level ∧
      (get_logger argsFileDemo envNoMkdir freshLogger fsNoParent).1.propagate =
        argsFileDemo.propagate ∧
      countConsole (get_logger argsFileDemo envNoMkdir
          freshLogger fsNoParent).1.handlers =
        (if argsFileDemo.add_stream_handler
            && !(freshLogger.handlers.any Handler.isStreamHandlerInstance)
         then countConsole freshLogger.handlers + 1
         else countConsole freshLogger.handlers) ∧
      countArcpy (get_logger argsFileDemo envNoMkdir
          freshLogger fsNoParent).1.handlers =
        (if envNoMkdir.arcpyAvailable && argsFileDemo.add_arcpy_handler
         then countArcpy freshLogger.handlers + 1
         else countArcpy freshLogger.handlers)) :=
  C4_failure_localization argsFileDemo envNoMkdir freshLogger fsNoParent
    Err.osError rfl

/-- C5: for every level passing validation (any recognized name string
with its exact case, or any recognized integer code) and a call with no
logfile path, `get_logger` succeeds and the stored severity threshold of
the returned logger is the numeric value of the requested level
(`logging.setLevel` maps names to their codes, an integer is stored as
given). -/
theorem C5_valid_level_sets_threshold
    (a : Args) (env : Env) (st : LoggerState) (fs : FsState)
    (hv : validLevel a.level = true) (hp : a.logfile_path = PathArg.none) :
    (get_logger a env st fs).2.2 = .ok () ∧
    (get_logger a env st fs).1.level = levelToInt a.level := by
  rw [get_logger_valid a env st fs hv, fileStep_none a env _ fs hp]
  exact ⟨rfl, rfl⟩

theorem C5_valid_level_sets_threshold_witness :
    validLevel argsDebug.level = true ∧
    levelToInt argsDebug.level = 10 ∧
    (get_logger argsDebug envPlain freshLogger fsReady).2.2 = .ok () ∧
    (get_logger argsDebug envPlain freshLogger fsReady).1.level =
      levelToInt argsDebug.level :=
  ⟨rfl, rfl,
    C5_valid_level_sets_threshold argsDebug envPlain freshLogger fsReady rfl rfl⟩

/-- C6: with `add_arcpy_handler=True`, a valid level and no logfile path:
when arcpy is unavailable the flag is silently ignored — the call
succeeds and the number of attached host-bridge sinks is unchanged; when
arcpy is available the call succeeds, one new host-bridge sink is
attached (default handler level 10) and it carries the given formatter. -/
theorem C6_bridge_flag_behavior
    (a : Args) (env : Env) (st : LoggerState) (fs : FsState)
    (hf : a.add_arcpy_handler = true) (hv : validLevel a.level = true)
    (hp : a.logfile_path = PathArg.none) :
    (env.arcpyAvailable = false →
      (get_logger a env st fs).2.2 = .ok () ∧
      countArcpy (get_logger a env st fs).1.handlers = countArcpy st.handlers) ∧
    (env.arcpyAvailable = true →
      (get_logger a env st fs).2.2 = .ok () ∧
      countArcpy (get_logger a env st fs).1.handlers = countArcpy st.handlers + 1 ∧
      Handler.arcpy 10 (some a.log_format) ∈ (get_logger a env st fs).1.handlers) := by
  rw [get_logger_valid a env st fs hv, fileStep_none a env _ fs hp]
  constructor
  · intro hav
    refine ⟨rfl, ?_⟩
    rw [countArcpy_postBridge_false a env _ (by simp [hav])]
  · intro hav
    refine ⟨rfl, ?_, ?_⟩
    · rw [countArcpy_postBridge_true a env _ (by simp [hav, hf])]
    · simp [hav, hf]

theorem C6_bridge_flag_behavior_witness :
    ((get_logger argsBridge envPlain freshLogger fsReady).2.2 = .ok () ∧
      countArcpy (get_logger argsBridge envPlain freshLogger fsReady).1.handlers =
        countArcpy freshLogger.handlers) ∧
    ((get_logger argsBridge envArcpy freshLogger fsReady).2.2 = .ok () ∧
      countArcpy (get_logger argsBridge envArcpy freshLogger fsReady).1.handlers =
        countArcpy freshLogger.handlers + 1 ∧
      Handler.arcpy 10 (some argsBridge.log_format) ∈
        (get_logger argsBridge envArcpy freshLogger fsReady).1.handlers) :=
  ⟨(C6_bridge_flag_behavior argsBridge envPlain freshLogger fsReady rfl rfl rfl).1 rfl,
   (C6_bridge_flag_behavior argsBridge envArcpy freshLogger fsReady rfl rfl rfl).2 rfl⟩

/-- C7: the host-bridge sink routes every emitted record by severity:
DEBUG (10) and INFO (20) go through `AddMessage` (the informational
channel), WARNING (30) through `AddWarning`, ERROR (40) and CRITICAL (50)
— and any record whose severity exceeds WARNING — through `AddError`. -/
theorem C7_emit_severity_routing :
    ArcpyHandler.emitRoute 10 = ArcpyChannel.addMessage ∧
    ArcpyHandler.emitRoute 20 = ArcpyChannel.addMessage ∧
    ArcpyHandler.emitRoute 30 = ArcpyChannel.addWarning ∧
    ArcpyHandler.emitRoute 40 = ArcpyChannel.addError ∧
    ArcpyHandler.emitRoute 50 = ArcpyChannel.addError ∧
    ∀ n : Int, 30 < n → ArcpyHandler.emitRoute n = ArcpyChannel.addError := by
  refine ⟨rfl, rfl, rfl, rfl, rfl, ?_⟩
  intro n hn
  unfold ArcpyHandler.emitRoute
  rw [if_neg (by omega), if_neg (by omega)]

theorem C7_emit_severity_routing_witness :
    (30 : Int) < 35 ∧ ArcpyHandler.emitRoute 35 = ArcpyChannel.addError :=
  ⟨by decide, C7_emit_severity_routing.2.2.2.2.2 35 (by decide)⟩

/-- C8: constructing the `ArcpyHandler` sink directly in an environment
where arcpy is absent raises `EnvironmentError` immediately, at any
requested handler level; no handler value is produced, so nothing can be
attached to any logger. -/
theorem C8_bridge_ctor_requires_arcpy (env : Env) (lvl : Int)
    (h : env.arcpyAvailable = false) :
    ArcpyHandler.init env lvl = .error .environmentError := by
  simp [ArcpyHandler.init, h]

theorem C8_bridge_ctor_requires_arcpy_witness :
    envPlain.arcpyAvailable = false ∧
    ArcpyHandler.init envPlain 10 = .error .environmentError :=
  ⟨rfl, C8_bridge_ctor_requires_arcpy envPlain 10 rfl⟩

/-- C9: for every call with a `pathlib.Path` logfile path and a valid
level, in an environment where the needed filesystem calls succeed
(creation is only attempted when the parent directory is missing), the
call succeeds, the parent directory exists afterwards (created with
`parents=True` before the sink is attached when it was missing), the
number of file sinks grows by exactly one — a fresh sink on every call,
never deduplicated — and the new sink is a file handler on that path in
append mode carrying the given formatter. -/
theorem C9_file_sink_attached
    (a : Args) (env : Env) (st : LoggerState) (pe : Bool) (p : String)
    (hp : a.logfile_path = PathArg.path p)
    (hv : validLevel a.level = true)
    (hmk : pe = false → env.mkdirOk = true) (hop : env.openOk = true) :
    (get_logger a env st { parentExists := pe }).2.2 = .ok () ∧
    (get_logger a env st { parentExists := pe }).2.1.parentExists = true ∧
    countFile (get_logger a env st
      { parentExists := pe }).1.handlers = countFile st.handlers + 1 ∧
    Handler.file p modeAppend (some a.log_format) ∈
      (get_logger a env st { parentExists := pe }).1.handlers := by
  rw [get_logger_valid a env st _ hv, fileStep_path_ok a env _ pe p hp hmk hop]
  refine ⟨rfl, rfl, ?_, ?_⟩
  · show countFile (_ ++ [Handler.file p modeAppend (some a.log_format)]) = _
    rw [countFile, List.countP_append, ← countFile, countFile_postBridge]
    simp [List.countP_cons, Handler.isFile, countFile]
  · simp

theorem C9_file_sink_attached_witness :
    (get_logger argsFileDemo envPlain freshLogger
      { parentExists := false }).2.2 = .ok () ∧
    (get_logger argsFileDemo envPlain freshLogger
      { parentExists := false }).2.1.parentExists = true ∧
    countFile (get_logger argsFileDemo envPlain freshLogger
      { parentExists := false }).1.handlers = countFile freshLogger.handlers + 1 ∧
    Handler.file pathDemo modeAppend (some argsFileDemo.log_format) ∈
      (get_logger argsFileDemo envPlain freshLogger
        { parentExists := false }).1.handlers :=
  C9_file_sink_attached argsFileDemo envPlain freshLogger false pathDemo
    rfl rfl (fun _ => rfl) rfl

/-- C10: for every call with a plain-string logfile path and a valid
level, the call raises `AttributeError` where `.parent` is taken (a
Python `str` has no `parent` attribute), so no file sink is ever
attached from a string path; the failure comes after the stream-handler
block, so when a console sink was requested and the logger had no
`StreamHandler`-classified sink, the console sink is already attached
when the call raises. -/
theorem C10_string_path_attribute_error
    (a : Args) (env : Env) (st : LoggerState) (fs : FsState) (s : String)
    (hp : a.logfile_path = PathArg.strPath s) (hv : validLevel a.level = true) :
    (get_logger a env st fs).2.2 = .error .attributeError ∧
    countFile (get_logger a env st fs).1.handlers = countFile st.handlers ∧
    (a.add_stream_handler = true →
      st.handlers.any Handler.isStreamHandlerInstance = false →
      countConsole (get_logger a env st fs).1.handlers =
        countConsole st.handlers + 1) := by
  have hcount := countConsole_get_logger a env st fs
  rw [get_logger_valid a env st fs hv] at hcount ⊢
  rw [fileStep_strPath a env _ fs s hp] at hcount ⊢
  refine ⟨rfl, ?_, ?_⟩
  · exact countFile_postBridge a env st.handlers
  · intro hadd hany
    rw [hcount]
    simp [hv, hadd, hany]

theorem C10_string_path_attribute_error_witness :
    (get_logger argsStrFileDemo envPlain freshLogger fsReady).2.2 =
      .error .attributeError ∧
    countFile (get_logger argsStrFileDemo envPlain
      freshLogger fsReady).1.handlers = countFile freshLogger.handlers ∧
    (argsStrFileDemo.add_stream_handler = true →
      freshLogger.handlers.any Handler.isStreamHandlerInstance = false →
      countConsole (get_logger argsStrFileDemo envPlain
        freshLogger fsReady).1.handlers = countConsole freshLogger.handlers + 1) :=
  C10_string_path_attribute_error argsStrFileDemo envPlain freshLogger fsReady
    pathDemo rfl rfl

end ICLog
